import Mathlib

/-!
Verification of the azure-wakeup-db repository (src/src/main.go).

Go strings are byte sequences; we model them as `List Nat` (byte values).
Literals are written through `goStr`, which UTF-8-encodes a Lean string —
for the ASCII literals appearing in the program this is the identity on
code points.

The embedded components (from src/src/main.go):
  - `buildConnectionString` (lines 39-78), together with the parts of Go's
    net/url package it calls: percent-escaping (`shouldEscape`/`goEscape`),
    `url.Values.Encode` (`valuesEncode`) and `url.URL.String` (`urlString`);
  - `isThrottlingError` (lines 81-88) with `strings.Contains` (`goContains`);
  - `addJitter` (lines 90-93), with rand.Float64 modelled by its exact
    value k / 2^53 for a uniform draw k < 2^53 (math/rand/v2 computes
    exactly that quotient), and the arithmetic carried out exactly;
  - `retryWithThrottlingError` (lines 96-132) as a function of an
    environment giving each attempt's outcome, each sleep's random draw,
    each attempt's wall-clock duration, and the context's cancellation
    time (`retryAux`);
  - `connectWithString` (lines 135-157) as a function of the open/ping
    outcomes, recording the pool-configuration and cleanup steps;
  - the connection-string selection and fail-fast guard of `main`
    (lines 188-207) as `mainDecision`.
-/

namespace AzureWakeupDb

/-- UTF-8 encoding of one code point, byte values as naturals. -/
def utf8Bytes (c : Char) : List Nat :=
  let n := c.toNat
  if n < 128 then [n]
  else if n < 2048 then [192 + n / 64, 128 + n % 64]
  else if n < 65536 then [224 + n / 4096, 128 + (n / 64) % 64, 128 + n % 64]
  else [240 + n / 262144, 128 + (n / 4096) % 64, 128 + (n / 64) % 64, 128 + n % 64]

/-- A Go string literal as its byte sequence. -/
def goStr (s : String) : List Nat := s.data.flatMap utf8Bytes

/-- Go strings.HasPrefix s p. -/
def goStartsWith : List Nat → List Nat → Bool
  | _, [] => true
  | [], _ :: _ => false
  | a :: s, b :: p => a == b && goStartsWith s p

/-- Go strings.Contains s sub: sub occurs as a contiguous substring of s. -/
def goContains : List Nat → List Nat → Bool
  | [], sub => goStartsWith [] sub
  | a :: t, sub => goStartsWith (a :: t) sub || goContains t sub

/-- The escaping modes of net/url used by this program. -/
inductive GoEnc where
  | path
  | userPassword
  | queryComponent
  | host
deriving DecidableEq, BEq

/-- ASCII letter or digit (net/url shouldEscape, unreserved alphanumerics). -/
def isAlphaNumByte (c : Nat) : Bool :=
  (97 ≤ c && c ≤ 122) || (65 ≤ c && c ≤ 90) || (48 ≤ c && c ≤ 57)

/-- The extra bytes net/url leaves unescaped in host components:
the sub-delims and : [ ] < > " (see shouldEscape, encodeHost case). -/
def hostExtraAllowed (c : Nat) : Bool :=
  ([33, 36, 38, 39, 40, 41, 42, 43, 44, 59, 61, 58, 91, 93, 60, 62, 34] : List Nat).contains c

/-- net/url shouldEscape(c, mode) for the modes this program exercises.
The byte lists are "-_.~" and "$&+,/:;=?@" respectively. -/
def shouldEscape (c : Nat) (mode : GoEnc) : Bool :=
  if isAlphaNumByte c then false
  else if mode == .host && hostExtraAllowed c then false
  else if ([45, 95, 46, 126] : List Nat).contains c then false
  else if ([36, 38, 43, 44, 47, 58, 59, 61, 63, 64] : List Nat).contains c then
    match mode with
    | .path => c == 63
    | .userPassword => c == 64 || c == 47 || c == 63 || c == 58
    | .queryComponent => true
    | .host => true
  else true

/-- Upper-case hex digit byte, as used by net/url escaping. -/
def upperHexDigit (n : Nat) : Nat := if n < 10 then 48 + n else 55 + n

/-- One byte of net/url escape: space becomes a plus sign in query
components; bytes needing escape become a percent and two hex digits. -/
def escapeByte (mode : GoEnc) (c : Nat) : List Nat :=
  if c == 32 && mode == .queryComponent then [43]
  else if shouldEscape c mode then [37, upperHexDigit (c / 16), upperHexDigit (c % 16)]
  else [c]

/-- net/url escape(s, mode). -/
def goEscape (mode : GoEnc) (s : List Nat) : List Nat := s.flatMap (escapeByte mode)

/-- net/url QueryEscape. -/
def queryEscape (s : List Nat) : List Nat := goEscape .queryComponent s

/-- Byte-wise lexicographic order on byte strings (Go string comparison,
as used by sort.Strings inside url.Values.Encode). -/
def lexLe : List Nat → List Nat → Bool
  | [], _ => true
  | _ :: _, [] => false
  | a :: s, b :: t => decide (a < b) || (a == b && lexLe s t)

/-- Insertion step of sorting key/value pairs by key. -/
def insertPair (p : List Nat × List Nat) :
    List (List Nat × List Nat) → List (List Nat × List Nat)
  | [] => [p]
  | q :: rest => if lexLe p.1 q.1 then p :: q :: rest else q :: insertPair p rest

/-- Sort key/value pairs by key (url.Values.Encode iterates keys in
sorted order; the keys built by this program are distinct). -/
def sortPairs : List (List Nat × List Nat) → List (List Nat × List Nat)
  | [] => []
  | p :: rest => insertPair p (sortPairs rest)

/-- One key=value component of url.Values.Encode (61 is the equals byte). -/
def encodeKV (p : List Nat × List Nat) : List Nat :=
  queryEscape p.1 ++ [61] ++ queryEscape p.2

/-- Join with ampersands (byte 38), as url.Values.Encode does. -/
def joinAmp : List (List Nat) → List Nat
  | [] => []
  | [x] => x
  | x :: y :: rest => x ++ [38] ++ joinAmp (y :: rest)

/-- url.Values.Encode for a list of key/value pairs with distinct keys. -/
def valuesEncode (q : List (List Nat × List Nat)) : List Nat :=
  joinAmp ((sortPairs q).map encodeKV)

/-- The path component url.URL.String writes: the escaped path, with a
leading slash (byte 47) inserted when the path is non-empty, does not
already start with a slash, and a host is present. -/
def pathPart (path hostRaw : List Nat) : List Nat :=
  if goEscape .path path ≠ [] ∧ (goEscape .path path).head? ≠ some 47 ∧ hostRaw ≠ []
  then [47] ++ goEscape .path path
  else goEscape .path path

/-- url.URL.String for the URL shape this program builds: non-empty
scheme, user info always present (url.UserPassword), non-empty host,
no opaque part, no fragment, no ForceQuery. Byte 63 is the question
mark separating the query. -/
def urlString (scheme userinfo hostRaw path rawQuery : List Nat) : List Nat :=
  scheme ++ goStr "://" ++ userinfo ++ goStr "@" ++ goEscape .host hostRaw
    ++ pathPart path hostRaw
    ++ (if rawQuery ≠ [] then [63] ++ rawQuery else [])

/-- The url.Values built at main.go lines 52-61: AppName, DisableRetry
(fmt of the constant false), DialTimeout (FormatFloat of
(5*time.Minute)/time.Second = 300), and database when non-empty. -/
def buildQuery (database : List Nat) : List (List Nat × List Nat) :=
  [(goStr "AppName", goStr "ghcr.io/redmer/azure-wakeup-db"),
   (goStr "DisableRetry", goStr "false"),
   (goStr "DialTimeout", goStr "300")]
  ++ (if database ≠ [] then [(goStr "database", database)] else [])

/-- main.go buildConnectionString (lines 39-78). Byte 58 is the colon:
the host is fmt.Sprintf of server, colon, port, and the user info is
url.UserPassword(username, password).String(). -/
def buildConnectionString
    (server portStr instanceName database username password dsn : List Nat) : List Nat :=
  if dsn ≠ [] then dsn
  else
    urlString (goStr "sqlserver")
      (goEscape .userPassword username ++ [58] ++ goEscape .userPassword password)
      (server ++ [58] ++ portStr)
      instanceName
      (if (buildQuery database).length > 0 then valuesEncode (buildQuery database) else [])

/-- main.go isThrottlingError (lines 81-88): nil errors are not
throttling; otherwise look for the literal "40613" in the message. -/
def isThrottlingError : Option (List Nat) → Bool
  | none => false
  | some msg => goContains msg (goStr "40613")

/-- The fail-fast marker of main.go line 198. -/
def emptyDSNMarker : List Nat := goStr "sqlserver://:@:1433?"

/-- What main does after assembling the connection string: exit with a
configuration error, or call retryWithThrottlingError on the string. -/
inductive MainAction where
  | configError
  | connect (connString : List Nat)
deriving DecidableEq

/-- main.go lines 188-207: take the DSN if provided, otherwise build the
string from the flags; fail fast when the result is empty or carries the
empty-parameters marker shape, else proceed to connect. -/
def mainDecision
    (server portStr instanceName database user password dsn : List Nat) : MainAction :=
  let cs0 := dsn
  let cs :=
    if cs0 == [] then
      buildConnectionString server portStr instanceName database user password dsn
    else cs0
  if cs == [] || goStartsWith cs emptyDSNMarker then .configError else .connect cs

/-! SCHEDULER_DEFS_NEXT -/

/-! The retry scheduler (main.go lines 90-132). Durations are naturals
counting nanoseconds. -/

/-- main.go addJitter (lines 90-93): delay plus 10% jitter. The uniform
draw rand.Float64() is exactly k / 2^53 for a uniform k < 2^53
(math/rand/v2 divides a 53-bit integer by 2^53), so the truncating
conversion time.Duration(rand.Float64() * float64(delay) * 0.1) is, in
exact arithmetic, the floor k * delay / (10 * 2^53). -/
def addJitter (delay : Nat) (k : Nat) : Nat :=
  delay + k * delay / (10 * 2 ^ 53)

/-- maxRetries of main.go line 97. -/
def maxRetries : Nat := 6

/-- The initial retryDelay of main.go line 104: 12 seconds in nanoseconds. -/
def baseRetryDelay : Nat := 12000000000

/-- Environment of one scheduler run: the outcome of each connect attempt
(`op i` is the error connectWithString returns on attempt i, none on
success), the random draw consumed by the sleep before attempt i, the
wall-clock duration of attempt i, and the instant at which the caller's
context is done (none when it never fires). -/
structure RetryEnv where
  op : Nat → Option (List Nat)
  draw : Nat → Nat
  attemptDur : Nat → Nat
  cancelTime : Option Nat

/-- Observable scheduler events: a connect attempt, or a backoff sleep of
the recorded realized duration. -/
inductive Event where
  | att (i : Nat)
  | slp (d : Nat)
deriving DecidableEq

/-- Terminal outcomes of the retry loop: success, a non-throttling error
returned unchanged, the context's cancellation error, or the
fmt.Errorf("failed to connect after %d attempts: %v", maxRetries,
lastErr) of line 131, modelled as the pair it wraps. -/
inductive RetryResult where
  | success
  | failed (e : List Nat)
  | cancelled
  | exhausted (attempts : Nat) (lastErr : Option (List Nat))
deriving DecidableEq

/-- A finished run: its result, its event trace, and the instant it
returned. -/
structure RunOut where
  result : RetryResult
  trace : List Event
  endTime : Nat
deriving DecidableEq

/-- The select on ctx.Done() at the head of each loop iteration: a
context with deadline t is done once t has elapsed. -/
def ctxDone : Option Nat → Nat → Bool
  | none, _ => false
  | some t, now => decide (t ≤ now)

/-- The loop of main.go lines 107-129, by recursion on the remaining
iterations (`for attempt := range maxRetries`). Cancellation is observed
only by the select at the head of an iteration; a sleep, once started,
runs its full jittered duration (time.Sleep, line 114), and the attempt
of that iteration still runs. After a throttling failure the delay
doubles (line 127). -/
def retryAux (env : RetryEnv) :
    Nat → Nat → Nat → Option (List Nat) → Nat → RunOut
  | 0, _, _, lastErr, now => ⟨.exhausted maxRetries lastErr, [], now⟩
  | remaining + 1, attempt, retryDelay, _lastErr, now =>
    if ctxDone env.cancelTime now then ⟨.cancelled, [], now⟩
    else
      let sleep := if attempt > 0 then addJitter retryDelay (env.draw attempt) else 0
      let preTrace : List Event :=
        if attempt > 0 then [.slp (addJitter retryDelay (env.draw attempt))] else []
      let after := now + sleep + env.attemptDur attempt
      match env.op attempt with
      | none => ⟨.success, preTrace ++ [.att attempt], after⟩
      | some e =>
        if isThrottlingError (some e) then
          let rest := retryAux env remaining (attempt + 1) (retryDelay * 2) (some e) after
          ⟨rest.result, preTrace ++ .att attempt :: rest.trace, rest.endTime⟩
        else ⟨.failed e, preTrace ++ [.att attempt], after⟩

/-- main.go retryWithThrottlingError (lines 96-132) for a given run
environment. -/
def retryWithThrottlingError (env : RetryEnv) : RunOut :=
  retryAux env maxRetries 0 baseRetryDelay none 0

/-- Number of connect attempts recorded in a trace. -/
def countAtt (t : List Event) : Nat :=
  t.countP fun e => match e with | .att _ => true | .slp _ => false

/-- Number of backoff sleeps recorded in a trace. -/
def countSlp (t : List Event) : Nat :=
  t.countP fun e => match e with | .att _ => false | .slp _ => true

/-- Well-formed continuation of a trace after an attempt: sleeps and
attempts alternate in sleep-then-attempt pairs, with no trailing sleep. -/
def tailOk : List Event → Bool
  | [] => true
  | .slp _ :: .att _ :: rest => tailOk rest
  | _ => false

/-- Well-formed whole trace: empty, or an attempt first (never a sleep),
followed by alternating sleep/attempt pairs — exactly one backoff sleep
between consecutive attempts. -/
def traceOk : List Event → Bool
  | [] => true
  | .att _ :: rest => tailOk rest
  | .slp _ :: _ => false

/-! The connector (main.go connectWithString, lines 135-157). -/

/-- Environment of one connectWithString call: the error sql.Open
returns (none on success) and the error db.PingContext returns. -/
structure ConnEnv where
  openErr : Option (List Nat)
  pingErr : Option (List Nat)

/-- Side-effecting steps connectWithString performs on the handle. -/
inductive ConnStep where
  | setMaxOpenConns (n : Nat)
  | setMaxIdleConns (n : Nat)
  | setConnMaxLifetime (ns : Nat)
  | ping
  | closeDB
deriving DecidableEq

/-- Result of a connectWithString call: whether a live handle was
returned to the caller, the error (wrapped as the code wraps it), and
the steps performed on the handle in order. -/
structure ConnOut where
  dbReturned : Bool
  err : Option (List Nat)
  steps : List ConnStep
deriving DecidableEq

/-- The pool settings applied at main.go lines 142-144: 5 open, 5 idle,
6 minutes lifetime (in nanoseconds). -/
def poolSteps : List ConnStep :=
  [.setMaxOpenConns 5, .setMaxIdleConns 5, .setConnMaxLifetime (6 * 60 * 1000000000)]

/-- main.go connectWithString (lines 135-157). When sql.Open fails, the
function returns at once (no handle exists yet, nothing is configured);
otherwise it applies the pool settings, pings, and on ping failure
closes the handle before returning the wrapped error. -/
def connectWithString (env : ConnEnv) : ConnOut :=
  match env.openErr with
  | some e => ⟨false, some (goStr "error opening database: " ++ e), []⟩
  | none =>
    match env.pingErr with
    | some e =>
      ⟨false, some (goStr "error connecting to database: " ++ e), poolSteps ++ [.ping, .closeDB]⟩
    | none => ⟨true, none, poolSteps ++ [.ping]⟩

/-- A leaked handle: sql.Open succeeded, the handle was not returned to
the caller, and it was never closed. -/
def connLeaked (env : ConnEnv) (out : ConnOut) : Prop :=
  env.openErr = none ∧ out.dbReturned = false ∧ ConnStep.closeDB ∉ out.steps

/-! Concrete run environments used by counterexamples and witnesses. -/

/-- A throttling failure message carrying the 40613 marker. -/
def throttleMsg : List Nat :=
  goStr "mssql: Database wakeupdb is not currently available. (40613)"

/-- A fatal (non-throttling) failure message. -/
def fatalMsg : List Nat := goStr "mssql: login error: bad credentials"

/-- Every attempt fails with the throttling error; no cancellation. -/
def envAllThrottle : RetryEnv :=
  ⟨fun _ => some throttleMsg, fun _ => 0, fun _ => 0, none⟩

/-- Every attempt fails fatally; no cancellation. -/
def envFatal : RetryEnv :=
  ⟨fun _ => some fatalMsg, fun _ => 0, fun _ => 0, none⟩

/-- First attempt throttled, second succeeds; the context is cancelled
at instant 1, strictly inside the first backoff sleep, which spans the
interval from 0 to addJitter (baseRetryDelay * 2) 0 = 24 seconds. -/
def envCancelSleep : RetryEnv :=
  ⟨fun i => if i == 0 then some throttleMsg else none, fun _ => 0, fun _ => 0, some 1⟩

/-- Attempts 0 and 1 throttled, attempt 0 takes 1ns, and the context is
cancelled at instant 2, strictly inside the first backoff sleep. -/
def envCancelSleep2 : RetryEnv :=
  ⟨fun _ => some throttleMsg, fun _ => 0, fun _ => 1, some 2⟩

/-! Basic properties of the byte-string helpers. -/

lemma goStartsWith_iff (p : List Nat) :
    ∀ s, goStartsWith s p = true ↔ ∃ r, s = p ++ r := by
  induction p with
  | nil =>
    intro s
    simp [goStartsWith]
  | cons b p ih =>
    intro s
    cases s with
    | nil =>
      simp [goStartsWith]
    | cons a t =>
      simp only [goStartsWith, Bool.and_eq_true, beq_iff_eq, ih, List.cons_append,
        List.cons.injEq]
      constructor
      · rintro ⟨hab, r, hr⟩
        exact ⟨r, hab, hr⟩
      · rintro ⟨r, hab, hr⟩
        exact ⟨hab, r, hr⟩

lemma goStartsWith_append (p r : List Nat) : goStartsWith (p ++ r) p = true :=
  (goStartsWith_iff p (p ++ r)).mpr ⟨r, rfl⟩

lemma goContains_iff (sub : List Nat) :
    ∀ s, goContains s sub = true ↔ ∃ pre post, s = pre ++ sub ++ post := by
  intro s
  induction s with
  | nil =>
    rw [show goContains [] sub = goStartsWith [] sub from rfl, goStartsWith_iff]
    constructor
    · rintro ⟨r, hr⟩
      exact ⟨[], r, hr⟩
    · rintro ⟨pre, post, h⟩
      rcases List.append_eq_nil.mp h.symm with ⟨h1, h2⟩
      rcases List.append_eq_nil.mp h1 with ⟨h3, h4⟩
      exact ⟨[], by simp [h4]⟩
  | cons a t ih =>
    rw [show goContains (a :: t) sub =
        (goStartsWith (a :: t) sub || goContains t sub) from rfl]
    simp only [Bool.or_eq_true, goStartsWith_iff, ih]
    constructor
    · rintro (⟨r, hr⟩ | ⟨pre, post, h⟩)
      · exact ⟨[], r, by simpa using hr⟩
      · exact ⟨a :: pre, post, by simp [h]⟩
    · rintro ⟨pre, post, h⟩
      cases pre with
      | nil =>
        exact Or.inl ⟨post, by simpa using h⟩
      | cons x pre =>
        rcases List.cons.injEq .. ▸ h with h
        simp only [List.cons_append, List.cons.injEq] at h
        exact Or.inr ⟨pre, post, h.2⟩

/-- C3. With a non-empty raw DSN, the builder returns exactly the DSN,
whatever the other connection fields hold (main.go lines 48-50). -/
theorem build_returns_rawDSN
    (server portStr instanceName database username password dsn : List Nat)
    (h : dsn ≠ []) :
    buildConnectionString server portStr instanceName database username password dsn
      = dsn := by
  simp [buildConnectionString, h]

/-- Witness for C3, on the spec's own scenario string. -/
theorem build_returns_rawDSN_witness :
    goStr "sqlserver://u:p@host/instance" ≠ [] ∧
      buildConnectionString (goStr "s") (goStr "1433") (goStr "i") (goStr "d")
        (goStr "u") (goStr "p") (goStr "sqlserver://u:p@host/instance")
        = goStr "sqlserver://u:p@host/instance" :=
  ⟨by decide,
   build_returns_rawDSN (goStr "s") (goStr "1433") (goStr "i") (goStr "d")
     (goStr "u") (goStr "p") (goStr "sqlserver://u:p@host/instance") (by decide)⟩

/-- C4. The throttling classifier answers true exactly when the failure
text contains the literal marker 40613; a nil error is never throttling,
and any message lacking the marker (authentication, network, syntax
failures included) is classified false. -/
theorem isThrottlingError_spec :
    isThrottlingError none = false ∧
      ∀ msg, (isThrottlingError (some msg) = true ↔
        ∃ pre post, msg = pre ++ goStr "40613" ++ post) := by
  refine ⟨rfl, fun msg => ?_⟩
  rw [show isThrottlingError (some msg) = goContains msg (goStr "40613") from rfl]
  exact goContains_iff (goStr "40613") msg

/-- C7. For every nominal delay and every value of the uniform draw
k / 2^53 with k < 2^53, the jittered duration lies between the nominal
delay and eleven tenths of it: the realized wait is never shorter than
the nominal delay. -/
theorem addJitter_bounds (d k : Nat) (hk : k < 2 ^ 53) :
    d ≤ addJitter d k ∧ (addJitter d k : ℚ) ≤ (d : ℚ) * (1 + 1 / 10) := by
  constructor
  · exact Nat.le_add_right _ _
  · unfold addJitter
    have hj : k * d / (10 * 2 ^ 53) ≤ d / 10 := by
      calc k * d / (10 * 2 ^ 53) ≤ 2 ^ 53 * d / (10 * 2 ^ 53) :=
            Nat.div_le_div_right (Nat.mul_le_mul_right d hk.le)
        _ = d / 10 := by
            rw [show 10 * 2 ^ 53 = 2 ^ 53 * 10 by ring,
              Nat.mul_div_mul_left _ _ (by positivity)]
    have h10 : 10 * (k * d / (10 * 2 ^ 53)) ≤ d := by
      calc 10 * (k * d / (10 * 2 ^ 53)) ≤ 10 * (d / 10) := Nat.mul_le_mul_left 10 hj
        _ ≤ d := Nat.mul_div_le d 10
    have hq : (10 : ℚ) * ((k * d / (10 * 2 ^ 53) : Nat) : ℚ) ≤ (d : ℚ) := by
      exact_mod_cast h10
    push_cast
    linarith

/-- Witness for C7 at delay 12s and draw one half. -/
theorem addJitter_bounds_witness :
    2 ^ 52 < 2 ^ 53 ∧
      (12000000000 ≤ addJitter 12000000000 (2 ^ 52) ∧
        (addJitter 12000000000 (2 ^ 52) : ℚ) ≤ (12000000000 : ℚ) * (1 + 1 / 10)) :=
  ⟨by norm_num, addJitter_bounds 12000000000 (2 ^ 52) (by norm_num)⟩

/-! Counting and unfolding lemmas for the scheduler. -/

@[simp] lemma countAtt_nil : countAtt [] = 0 := rfl

@[simp] lemma countAtt_cons_att (i : Nat) (t : List Event) :
    countAtt (.att i :: t) = countAtt t + 1 := by
  simp [countAtt, List.countP_cons]

@[simp] lemma countAtt_cons_slp (d : Nat) (t : List Event) :
    countAtt (.slp d :: t) = countAtt t := by
  simp [countAtt, List.countP_cons]

@[simp] lemma countAtt_append (s t : List Event) :
    countAtt (s ++ t) = countAtt s + countAtt t := by
  simp [countAtt, List.countP_append]

@[simp] lemma countSlp_nil : countSlp [] = 0 := rfl

@[simp] lemma countSlp_cons_att (i : Nat) (t : List Event) :
    countSlp (.att i :: t) = countSlp t := by
  simp [countSlp, List.countP_cons]

@[simp] lemma countSlp_cons_slp (d : Nat) (t : List Event) :
    countSlp (.slp d :: t) = countSlp t + 1 := by
  simp [countSlp, List.countP_cons]

@[simp] lemma countSlp_append (s t : List Event) :
    countSlp (s ++ t) = countSlp s + countSlp t := by
  simp [countSlp, List.countP_append]

lemma retryAux_succ_def (env : RetryEnv) (r a d : Nat) (l : Option (List Nat)) (now : Nat) :
    retryAux env (r + 1) a d l now =
      if ctxDone env.cancelTime now then ⟨.cancelled, [], now⟩
      else
        let sleep := if a > 0 then addJitter d (env.draw a) else 0
        let preTrace : List Event :=
          if a > 0 then [.slp (addJitter d (env.draw a))] else []
        let after := now + sleep + env.attemptDur a
        match env.op a with
        | none => ⟨.success, preTrace ++ [.att a], after⟩
        | some e =>
          if isThrottlingError (some e) then
            let rest := retryAux env r (a + 1) (d * 2) (some e) after
            ⟨rest.result, preTrace ++ .att a :: rest.trace, rest.endTime⟩
          else ⟨.failed e, preTrace ++ [.att a], after⟩ := rfl

lemma tailOk_pair (s i : Nat) (t : List Event) :
    tailOk (Event.slp s :: Event.att i :: t) = tailOk t := rfl

/-- Structure of every run tail: within the attempt budget, and
well-formed (from attempt 0, a trace; from a later attempt, a tail). -/
lemma retryAux_shape (env : RetryEnv) :
    ∀ r a d l now,
      countAtt (retryAux env r a d l now).trace ≤ r ∧
        (a = 0 → traceOk (retryAux env r a d l now).trace = true) ∧
        (a ≠ 0 → tailOk (retryAux env r a d l now).trace = true) := by
  intro r
  induction r with
  | zero =>
    intro a d l now
    simp [retryAux, traceOk, tailOk]
  | succ r ih =>
    intro a d l now
    rw [retryAux_succ_def]
    by_cases hc : ctxDone env.cancelTime now = true
    · simp [hc, traceOk, tailOk]
    · rw [Bool.not_eq_true] at hc
      rcases hop : env.op a with _ | e
      · -- success on this attempt
        cases a with
        | zero => simp [hc, hop, traceOk, tailOk]
        | succ n => simp [hc, hop, traceOk, tailOk, tailOk_pair]
      · by_cases hthr : isThrottlingError (some e) = true
        · -- throttling: recurse
          rcases ih (a + 1) (d * 2) (some e)
            (now + (if a > 0 then addJitter d (env.draw a) else 0) + env.attemptDur a)
            with ⟨ihc, _, iht⟩
          have htail := iht (Nat.succ_ne_zero a)
          cases a with
          | zero =>
            simp only [hc, hop, hthr]
            simp only [Bool.false_eq_true, if_false, gt_iff_lt, Nat.lt_irrefl,
              List.nil_append]
            refine ⟨?_, ?_, ?_⟩
            · simpa using Nat.add_le_add_right (by simpa using ihc) 1
            · intro _
              simpa [traceOk] using htail
            · intro h
              exact absurd rfl h
          | succ n =>
            simp only [hc, hop, hthr]
            simp only [Bool.false_eq_true, if_false, gt_iff_lt, Nat.succ_pos,
              if_pos, List.singleton_append]
            refine ⟨?_, ?_, ?_⟩
            · simpa using Nat.add_le_add_right (by simpa using ihc) 1
            · intro h
              exact absurd h (Nat.succ_ne_zero n)
            · intro _
              simpa [tailOk_pair] using htail
        · -- fatal: stop here
          rw [Bool.not_eq_true] at hthr
          cases a with
          | zero => simp [hc, hop, hthr, traceOk, tailOk]
          | succ n => simp [hc, hop, hthr, traceOk, tailOk, tailOk_pair]

/-- C6. Across every run of the scheduler the number of connect attempts
is at most maxRetries = 6, and the trace is an attempt followed by
alternating sleep/attempt pairs: one backoff sleep between consecutive
attempts, none before the first attempt, none after the last. -/
theorem retry_budget_and_backoff (env : RetryEnv) :
    countAtt (retryWithThrottlingError env).trace ≤ maxRetries ∧
      traceOk (retryWithThrottlingError env).trace = true := by
  rcases retryAux_shape env maxRetries 0 baseRetryDelay none 0 with ⟨hle, hok, _⟩
  exact ⟨hle, hok rfl⟩

/-- A run segment in which every remaining attempt hits a throttling
failure ends exhausted, carrying the last failure, after exactly as many
attempts as iterations remained. -/
lemma retryAux_allThrottle (env : RetryEnv) (hc : env.cancelTime = none) :
    ∀ r a d l now,
      (∀ i, i < r → isThrottlingError (env.op (a + i)) = true) →
      (retryAux env r a d l now).result
          = .exhausted maxRetries (if r = 0 then l else env.op (a + (r - 1))) ∧
        countAtt (retryAux env r a d l now).trace = r := by
  intro r
  induction r with
  | zero =>
    intro a d l now _
    simp [retryAux]
  | succ r ih =>
    intro a d l now hthr
    have h0 : isThrottlingError (env.op a) = true := by
      simpa using hthr 0 (Nat.succ_pos r)
    rcases hop : env.op a with _ | e
    · rw [hop] at h0
      simp [isThrottlingError] at h0
    · rw [hop] at h0
      have hcd : ctxDone env.cancelTime now = false := by simp [hc, ctxDone]
      rw [retryAux_succ_def]
      simp only [hcd, Bool.false_eq_true, if_false, hop, h0, if_true]
      have hrec := ih (a + 1) (d * 2) (some e)
        (now + (if a > 0 then addJitter d (env.draw a) else 0) + env.attemptDur a)
        (fun i hi => by
          have := hthr (i + 1) (Nat.succ_lt_succ hi)
          have harith : a + (i + 1) = a + 1 + i := by omega
          rwa [harith] at this)
      rcases hrec with ⟨hres, hcount⟩
      constructor
      · rw [hres]
        rcases Nat.eq_zero_or_pos r with hr | hr
        · subst hr
          simp [hop]
        · have h1 : ¬ (r = 0) := by omega
          have h2 : a + 1 + (r - 1) = a + (r + 1 - 1) := by omega
          simp [h1, h2]
      · cases a with
        | zero => simpa using hcount
        | succ n => simpa using hcount

/-- Counterexample to C1 as stated: with every attempt throttled and no
cancellation, the scheduler makes exactly 6 attempts, not 15 — the
attempt budget of the code is maxRetries = 6. -/
theorem retry_budget_is_six_not_fifteen :
    countAtt (retryWithThrottlingError envAllThrottle).trace = 6 ∧
      ¬ countAtt (retryWithThrottlingError envAllThrottle).trace = 15 := by
  decide

/-- C1 (amended: the attempt budget is maxRetries = 6, not 15). If every
attempt fails with a throttling error and the context never fires, the
scheduler makes exactly maxRetries = 6 attempts and returns the
exhausted error wrapping the attempt total together with the last
transient failure. -/
theorem retry_exhausts_budget (env : RetryEnv)
    (hc : env.cancelTime = none)
    (hthr : ∀ i, i < maxRetries → isThrottlingError (env.op i) = true) :
    (retryWithThrottlingError env).result
        = .exhausted maxRetries (env.op (maxRetries - 1)) ∧
      countAtt (retryWithThrottlingError env).trace = maxRetries := by
  have h := retryAux_allThrottle env hc maxRetries 0 baseRetryDelay none 0
    (fun i hi => by simpa using hthr i hi)
  rcases h with ⟨hres, hcount⟩
  refine ⟨?_, hcount⟩
  show (retryAux env maxRetries 0 baseRetryDelay none 0).result = _
  rw [hres]
  simp [maxRetries]

/-- Witness for C1's amended theorem on the all-throttling environment. -/
theorem retry_exhausts_budget_witness :
    envAllThrottle.cancelTime = none ∧
      (∀ i, i < maxRetries → isThrottlingError (envAllThrottle.op i) = true) ∧
      ((retryWithThrottlingError envAllThrottle).result
          = .exhausted maxRetries (envAllThrottle.op (maxRetries - 1)) ∧
        countAtt (retryWithThrottlingError envAllThrottle).trace = maxRetries) :=
  ⟨rfl, by decide, retry_exhausts_budget envAllThrottle rfl (by decide)⟩

/-- A run segment with throttling failures up to the fatal attempt stops
on that attempt: the fatal cause is returned unchanged, attempts count
one past the throttled ones, and the only sleeps are those between
attempts (one before each attempt after the segment's first iteration,
which sleeps exactly when it is not the run's first attempt). -/
lemma retryAux_fatal (env : RetryEnv) (e : List Nat)
    (hc : env.cancelTime = none) (hfatal : isThrottlingError (some e) = false) :
    ∀ j a r d l now, j < r →
      (∀ i, i < j → isThrottlingError (env.op (a + i)) = true) →
      env.op (a + j) = some e →
      (retryAux env r a d l now).result = .failed e ∧
        countAtt (retryAux env r a d l now).trace = j + 1 ∧
        countSlp (retryAux env r a d l now).trace = j + (if a = 0 then 0 else 1) := by
  intro j
  induction j with
  | zero =>
    intro a r d l now hr _ hop
    rcases r with _ | r
    · omega
    have hcd : ctxDone env.cancelTime now = false := by simp [hc, ctxDone]
    rw [Nat.add_zero] at hop
    rw [retryAux_succ_def]
    simp only [hcd, Bool.false_eq_true, if_false, hop, hfatal]
    cases a with
    | zero => simp
    | succ n => simp
  | succ j ih =>
    intro a r d l now hr hthr hop
    rcases r with _ | r
    · omega
    have hcd : ctxDone env.cancelTime now = false := by simp [hc, ctxDone]
    have h0 : isThrottlingError (env.op a) = true := by
      simpa using hthr 0 (Nat.succ_pos j)
    rcases hop0 : env.op a with _ | e0
    · rw [hop0] at h0
      simp [isThrottlingError] at h0
    · rw [hop0] at h0
      rw [retryAux_succ_def]
      simp only [hcd, Bool.false_eq_true, if_false, hop0, h0, if_true]
      have hrec := ih (a + 1) r (d * 2) (some e0)
        ((now + if a > 0 then addJitter d (env.draw a) else 0) + env.attemptDur a)
        (by omega)
        (fun i hi => by
          have := hthr (i + 1) (Nat.succ_lt_succ hi)
          have harith : a + (i + 1) = a + 1 + i := by omega
          rwa [harith] at this)
        (by
          have harith : a + (j + 1) = a + 1 + j := by omega
          rwa [harith] at hop)
      rcases hrec with ⟨hres, hcount, hslp⟩
      have hsucc : ¬ (a + 1 = 0) := Nat.succ_ne_zero a
      cases a with
      | zero =>
        refine ⟨by simpa using hres, ?_, ?_⟩
        · simpa using hcount
        · simp only [hsucc, if_false] at hslp
          simpa using hslp
      | succ n =>
        refine ⟨by simpa using hres, ?_, ?_⟩
        · simpa using hcount
        · simp only [hsucc, if_false] at hslp
          simp only [Nat.succ_ne_zero, if_false]
          simpa using hslp

/-- C8. When the k-th attempt (k within budget, every earlier attempt a
throttling failure, no cancellation) fails with a non-throttling error,
the scheduler returns the failed result carrying that cause unchanged,
makes no further attempt (k+1 attempts in total), and performs no
backoff sleep beyond the k already taken between attempts — in
particular a first-attempt fatal failure causes no sleep at all. -/
theorem retry_fatal_stops (env : RetryEnv) (k : Nat) (e : List Nat)
    (hc : env.cancelTime = none)
    (hk : k < maxRetries)
    (hthr : ∀ i, i < k → isThrottlingError (env.op i) = true)
    (hop : env.op k = some e)
    (hfatal : isThrottlingError (some e) = false) :
    (retryWithThrottlingError env).result = .failed e ∧
      countAtt (retryWithThrottlingError env).trace = k + 1 ∧
      countSlp (retryWithThrottlingError env).trace = k := by
  have h := retryAux_fatal env e hc hfatal k 0 maxRetries baseRetryDelay none 0 hk
    (fun i hi => by simpa using hthr i hi) (by simpa using hop)
  simpa using h

/-- Witness for C8: an always-fatal operation stops on the very first
attempt with the cause unchanged and no sleep. -/
theorem retry_fatal_stops_witness :
    envFatal.cancelTime = none ∧ 0 < maxRetries ∧
      (∀ i, i < 0 → isThrottlingError (envFatal.op i) = true) ∧
      envFatal.op 0 = some fatalMsg ∧
      isThrottlingError (some fatalMsg) = false ∧
      ((retryWithThrottlingError envFatal).result = .failed fatalMsg ∧
        countAtt (retryWithThrottlingError envFatal).trace = 0 + 1 ∧
        countSlp (retryWithThrottlingError envFatal).trace = 0) :=
  ⟨rfl, by decide, by omega, rfl, by decide,
   retry_fatal_stops envFatal 0 fatalMsg rfl (by decide) (by omega) rfl (by decide)⟩

lemma retryAux_step_cancel (env : RetryEnv) (r a d : Nat) (l : Option (List Nat)) (now : Nat)
    (hcd : ctxDone env.cancelTime now = true) :
    retryAux env (r + 1) a d l now = ⟨.cancelled, [], now⟩ := by
  rw [retryAux_succ_def]
  simp [hcd]

lemma retryAux_step_throttle (env : RetryEnv) (r a d : Nat) (l : Option (List Nat))
    (now : Nat) (e : List Nat)
    (hcd : ctxDone env.cancelTime now = false)
    (hop : env.op a = some e)
    (hthr : isThrottlingError (some e) = true) :
    retryAux env (r + 1) a d l now =
      ⟨(retryAux env r (a + 1) (d * 2) (some e)
          (now + (if a > 0 then addJitter d (env.draw a) else 0) + env.attemptDur a)).result,
        (if a > 0 then [Event.slp (addJitter d (env.draw a))] else [])
          ++ .att a :: (retryAux env r (a + 1) (d * 2) (some e)
            (now + (if a > 0 then addJitter d (env.draw a) else 0) + env.attemptDur a)).trace,
        (retryAux env r (a + 1) (d * 2) (some e)
          (now + (if a > 0 then addJitter d (env.draw a) else 0) + env.attemptDur a)).endTime⟩ := by
  rw [retryAux_succ_def]
  simp only [hcd, Bool.false_eq_true, if_false, hop, hthr, if_true]

/-- Counterexample to C2 as stated: in envCancelSleep the cancellation
instant 1 falls strictly inside the first backoff sleep (which spans the
instants 0 to 24s), yet the run does not return Cancelled at all — the
sleep completes in full, the next attempt still runs and its success is
returned; the run ends only at the sleep's full duration. -/
theorem retry_cancel_during_sleep_cex :
    envCancelSleep.cancelTime = some 1 ∧
      0 < 1 ∧ 1 < addJitter (baseRetryDelay * 2) (envCancelSleep.draw 1) ∧
      (retryWithThrottlingError envCancelSleep).result = .success ∧
      ¬ (retryWithThrottlingError envCancelSleep).result = .cancelled ∧
      (retryWithThrottlingError envCancelSleep).endTime
        = addJitter (baseRetryDelay * 2) (envCancelSleep.draw 1) := by
  decide

/-- C2 (amended): when the cancellation signal fires strictly during the
first backoff sleep of a run whose first two attempts are throttled, the
scheduler does not interrupt the sleep — it completes the full jittered
sleep (time.Sleep is uninterruptible, main.go line 114), still performs
the next attempt, and only then observes the cancellation at the next
iteration's select, returning Cancelled at an instant no earlier than
the sleep's end. -/
theorem retry_cancel_after_full_sleep (env : RetryEnv) (tc : Nat) (e0 e1 : List Nat)
    (hc : env.cancelTime = some tc)
    (h0 : env.op 0 = some e0) (h0t : isThrottlingError (some e0) = true)
    (h1 : env.op 1 = some e1) (h1t : isThrottlingError (some e1) = true)
    (hlo : env.attemptDur 0 < tc)
    (hhi : tc < env.attemptDur 0 + addJitter (baseRetryDelay * 2) (env.draw 1)) :
    (retryWithThrottlingError env).result = .cancelled ∧
      (retryWithThrottlingError env).trace
        = [.att 0, .slp (addJitter (baseRetryDelay * 2) (env.draw 1)), .att 1] ∧
      (retryWithThrottlingError env).endTime
        = env.attemptDur 0 + addJitter (baseRetryDelay * 2) (env.draw 1)
            + env.attemptDur 1 := by
  have hcd0 : ctxDone env.cancelTime 0 = false := by
    rw [hc]
    simp only [ctxDone, decide_eq_false_iff_not]
    omega
  have hcd1 : ctxDone env.cancelTime (env.attemptDur 0) = false := by
    rw [hc]
    simp only [ctxDone, decide_eq_false_iff_not]
    omega
  have hcd2 : ctxDone env.cancelTime
      (env.attemptDur 0 + addJitter (baseRetryDelay * 2) (env.draw 1)
        + env.attemptDur 1) = true := by
    rw [hc]
    simp only [ctxDone, decide_eq_true_eq]
    omega
  unfold retryWithThrottlingError
  rw [show maxRetries = 5 + 1 from rfl,
    retryAux_step_throttle env 5 0 baseRetryDelay none 0 e0 hcd0 h0 h0t]
  simp only [gt_iff_lt, Nat.lt_irrefl, if_false, Nat.zero_add, List.nil_append,
    Nat.add_zero, Nat.zero_lt_one, if_true]
  rw [show (5 : Nat) = 4 + 1 from rfl,
    retryAux_step_throttle env 4 1 (baseRetryDelay * 2) (some e0)
      (env.attemptDur 0) e1 hcd1 h1 h1t]
  simp only [gt_iff_lt, Nat.zero_lt_one, if_true, List.singleton_append]
  rw [show (4 : Nat) = 3 + 1 from rfl,
    retryAux_step_cancel env 3 2 (baseRetryDelay * 2 * 2) (some e1)
      (env.attemptDur 0 + addJitter (baseRetryDelay * 2) (env.draw 1)
        + env.attemptDur 1) hcd2]
  exact ⟨rfl, rfl, rfl⟩

/-- Witness for C2's amended theorem on envCancelSleep2. -/
theorem retry_cancel_after_full_sleep_witness :
    envCancelSleep2.cancelTime = some 2 ∧
      envCancelSleep2.op 0 = some throttleMsg ∧
      isThrottlingError (some throttleMsg) = true ∧
      envCancelSleep2.op 1 = some throttleMsg ∧
      envCancelSleep2.attemptDur 0 < 2 ∧
      2 < envCancelSleep2.attemptDur 0
          + addJitter (baseRetryDelay * 2) (envCancelSleep2.draw 1) ∧
      ((retryWithThrottlingError envCancelSleep2).result = .cancelled ∧
        (retryWithThrottlingError envCancelSleep2).trace
          = [.att 0, .slp (addJitter (baseRetryDelay * 2) (envCancelSleep2.draw 1)), .att 1] ∧
        (retryWithThrottlingError envCancelSleep2).endTime
          = envCancelSleep2.attemptDur 0
              + addJitter (baseRetryDelay * 2) (envCancelSleep2.draw 1)
              + envCancelSleep2.attemptDur 1) :=
  ⟨rfl, rfl, by decide, rfl, by decide, by decide,
   retry_cancel_after_full_sleep envCancelSleep2 2 throttleMsg throttleMsg
     rfl rfl (by decide) rfl (by decide) (by decide) (by decide)⟩

/-- Counterexample to C9 as stated: on a call where sql.Open itself
fails (a malformed connection string), connectWithString returns before
touching the handle, so the pool is not configured on that call. -/
theorem connect_openFail_no_pool_cex :
    (connectWithString ⟨some (goStr "parse error"), none⟩).steps = [] ∧
      ConnStep.setMaxOpenConns 5 ∉ (connectWithString ⟨some (goStr "parse error"), none⟩).steps := by
  decide

/-- C9 (amended: the pool is configured on every call on which sql.Open
succeeds). Whenever the driver handle is opened, the connector sets max
open connections 5, max idle connections 5, and a 6-minute connection
lifetime, in that order, before pinging; whenever the ping fails it
closes the handle and returns no handle; and no failure path leaks an
open handle. -/
theorem connect_pool_and_cleanup (env : ConnEnv) :
    (env.openErr = none →
      (connectWithString env).steps.take 3
        = [ConnStep.setMaxOpenConns 5, ConnStep.setMaxIdleConns 5,
           ConnStep.setConnMaxLifetime (6 * 60 * 1000000000)]) ∧
      (∀ e, env.openErr = none → env.pingErr = some e →
        (connectWithString env).dbReturned = false ∧
          ConnStep.closeDB ∈ (connectWithString env).steps) ∧
      ((connectWithString env).err.isSome = true →
        ¬ connLeaked env (connectWithString env)) := by
  rcases env with ⟨openErr, pingErr⟩
  rcases openErr with _ | eo
  · rcases pingErr with _ | ep
    · refine ⟨fun _ => by decide, fun e _ h => by simp at h, fun h => by simp [connectWithString] at h⟩
    · refine ⟨fun _ => rfl, fun e _ h => ?_, fun _ => ?_⟩
      · exact ⟨rfl, by simp [connectWithString, poolSteps]⟩
      · rintro ⟨-, -, habs⟩
        exact habs (by simp [connectWithString, poolSteps])
  · refine ⟨fun h => by simp at h, fun e h => by simp at h, fun _ => ?_⟩
    rintro ⟨habs, -, -⟩
    simp at habs

/-- Witness for C9's amended theorem: sql.Open succeeds and the ping
fails — the pool is configured, the handle is closed, nothing leaks. -/
theorem connect_pool_and_cleanup_witness :
    (⟨none, some (goStr "ping timeout")⟩ : ConnEnv).openErr = none ∧
      (⟨none, some (goStr "ping timeout")⟩ : ConnEnv).pingErr = some (goStr "ping timeout") ∧
      (connectWithString ⟨none, some (goStr "ping timeout")⟩).steps.take 3
        = [ConnStep.setMaxOpenConns 5, ConnStep.setMaxIdleConns 5,
           ConnStep.setConnMaxLifetime (6 * 60 * 1000000000)] ∧
      ((connectWithString ⟨none, some (goStr "ping timeout")⟩).dbReturned = false ∧
        ConnStep.closeDB ∈ (connectWithString ⟨none, some (goStr "ping timeout")⟩).steps) :=
  ⟨rfl, rfl,
   (connect_pool_and_cleanup ⟨none, some (goStr "ping timeout")⟩).1 rfl,
   (connect_pool_and_cleanup ⟨none, some (goStr "ping timeout")⟩).2.1
     (goStr "ping timeout") rfl rfl⟩

/-! Lemmas about the URL assembly, for the fail-fast guard claims. -/

lemma insertPair_ne_nil (p : List Nat × List Nat) :
    ∀ l, insertPair p l ≠ [] := by
  intro l
  cases l with
  | nil => simp [insertPair]
  | cons q rest =>
    unfold insertPair
    split <;> simp

lemma sortPairs_ne_nil (q : List (List Nat × List Nat)) (hne : q ≠ []) :
    sortPairs q ≠ [] := by
  cases q with
  | nil => exact absurd rfl hne
  | cons p rest => exact insertPair_ne_nil p (sortPairs rest)

lemma encodeKV_ne_nil (p : List Nat × List Nat) : encodeKV p ≠ [] := by
  unfold encodeKV
  intro h
  rcases List.append_eq_nil.mp h with ⟨h1, -⟩
  rcases List.append_eq_nil.mp h1 with ⟨-, h2⟩
  exact absurd h2 (by simp)

lemma joinAmp_ne_nil (x : List Nat) (xs : List (List Nat)) (hx : x ≠ []) :
    joinAmp (x :: xs) ≠ [] := by
  cases xs with
  | nil => simpa [joinAmp] using hx
  | cons y rest =>
    unfold joinAmp
    intro h
    rcases List.append_eq_nil.mp h with ⟨h1, -⟩
    rcases List.append_eq_nil.mp h1 with ⟨h2, -⟩
    exact hx h2

lemma valuesEncode_ne_nil (q : List (List Nat × List Nat)) (hne : q ≠ []) :
    valuesEncode q ≠ [] := by
  unfold valuesEncode
  rcases hs : sortPairs q with _ | ⟨p, rest⟩
  · exact absurd hs (sortPairs_ne_nil q hne)
  · rw [List.map_cons]
    exact joinAmp_ne_nil _ _ (encodeKV_ne_nil p)

lemma goEscape_append (mode : GoEnc) (s t : List Nat) :
    goEscape mode (s ++ t) = goEscape mode s ++ goEscape mode t := by
  simp [goEscape]

lemma upperHexDigit_ne_63 (n : Nat) : upperHexDigit n ≠ 63 := by
  unfold upperHexDigit
  split <;> omega

lemma upperHexDigit_ne_47 (n : Nat) : upperHexDigit n ≠ 47 := by
  unfold upperHexDigit
  split <;> omega

/-- A byte that every relevant mode escapes, that is not the percent
byte, not the plus byte, and not a hex digit image, never appears in an
escaped string. -/
lemma not_mem_goEscape (mode : GoEnc) (b : Nat)
    (hb : shouldEscape b mode = true) (hb37 : b ≠ 37) (hb43 : b ≠ 43)
    (hhex : ∀ n, upperHexDigit n ≠ b) :
    ∀ s, b ∉ goEscape mode s := by
  intro s
  induction s with
  | nil => simp [goEscape]
  | cons c t ih =>
    rw [show goEscape mode (c :: t) = escapeByte mode c ++ goEscape mode t from rfl]
    intro hmem
    rcases List.mem_append.mp hmem with hmem | hmem
    · unfold escapeByte at hmem
      by_cases h32 : (c == 32 && mode == GoEnc.queryComponent) = true
      · rw [if_pos h32] at hmem
        simp only [List.mem_singleton] at hmem
        exact hb43 hmem
      · rw [if_neg h32] at hmem
        by_cases hesc : shouldEscape c mode = true
        · rw [if_pos hesc] at hmem
          simp only [List.mem_cons, List.not_mem_nil, or_false] at hmem
          rcases hmem with h | h | h
          · exact hb37 h
          · exact hhex (c / 16) h.symm
          · exact hhex (c % 16) h.symm
        · rw [if_neg hesc] at hmem
          simp only [List.mem_singleton] at hmem
          exact hesc (hmem ▸ hb)
    · exact ih hmem

lemma not_mem_goEscape_host_63 (s : List Nat) : 63 ∉ goEscape .host s :=
  not_mem_goEscape .host 63 (by decide) (by decide) (by decide) upperHexDigit_ne_63 s

lemma not_mem_goEscape_path_63 (s : List Nat) : 63 ∉ goEscape .path s :=
  not_mem_goEscape .path 63 (by decide) (by decide) (by decide) upperHexDigit_ne_63 s

lemma not_mem_goEscape_host_47 (s : List Nat) : 47 ∉ goEscape .host s :=
  not_mem_goEscape .host 47 (by decide) (by decide) (by decide) upperHexDigit_ne_47 s

lemma escapeByte_host (c : Nat) :
    escapeByte .host c =
      if shouldEscape c .host then [37, upperHexDigit (c / 16), upperHexDigit (c % 16)]
      else [c] := by
  unfold escapeByte
  rw [show (GoEnc.host == GoEnc.queryComponent) = false from rfl, Bool.and_false,
    if_neg Bool.false_ne_true]

/-- Host escaping is literal on strings it maps to a percent-free image:
if the escaped host equals a percent-free string, the input was that
string. -/
lemma goEscape_host_eq_self (s : List Nat) :
    ∀ t, 37 ∉ t → goEscape .host s = t → s = t := by
  induction s with
  | nil =>
    intro t _ h
    rw [show goEscape .host ([] : List Nat) = [] from rfl] at h
    exact h
  | cons c s2 ih =>
    intro t h37 h
    rw [show goEscape .host (c :: s2) = escapeByte .host c ++ goEscape .host s2 from rfl]
      at h
    by_cases hesc : shouldEscape c .host = true
    · have hb : escapeByte .host c
          = [37, upperHexDigit (c / 16), upperHexDigit (c % 16)] := by
        rw [escapeByte_host, if_pos hesc]
      rw [hb] at h
      have : (37 : Nat) ∈ t := by
        rw [← h]
        simp
      exact absurd this h37
    · have hb : escapeByte .host c = [c] := by
        rw [escapeByte_host, if_neg hesc]
      rw [hb] at h
      cases t with
      | nil => simp at h
      | cons b t2 =>
        simp only [List.cons_append, List.nil_append, List.cons.injEq] at h
        rw [h.1, ih t2 (fun hm => h37 (List.mem_cons_of_mem _ hm)) h.2]

/-- Splitting at a separator absent on both sides: equal lists that each
consist of a separator-free part, the separator, and a tail, agree on
the separator-free parts. -/
lemma sep_split (sep : Nat) :
    ∀ (w A r rest : List Nat), sep ∉ A → sep ∉ w →
      A ++ sep :: r = w ++ sep :: rest → A = w := by
  intro w
  induction w with
  | nil =>
    intro A r rest hA _ h
    cases A with
    | nil => rfl
    | cons a A2 =>
      simp only [List.cons_append, List.nil_append, List.cons.injEq] at h
      exact absurd (h.1 ▸ List.mem_cons_self a A2) (h.1 ▸ hA)
  | cons b w2 ih =>
    intro A r rest hA hw h
    cases A with
    | nil =>
      simp only [List.nil_append, List.cons_append, List.cons.injEq] at h
      exact absurd (h.1 ▸ List.mem_cons_self b w2) (fun hm => hw (h.1 ▸ hm))
    | cons a A2 =>
      simp only [List.cons_append, List.cons.injEq] at h
      rw [h.1, ih A2 r rest (fun hm => hA (List.mem_cons_of_mem _ hm))
        (fun hm => hw (List.mem_cons_of_mem _ hm)) h.2]

lemma pathPart_no_63 (path hostRaw : List Nat) : 63 ∉ pathPart path hostRaw := by
  unfold pathPart
  split
  · intro hm
    rcases List.mem_append.mp hm with hm | hm
    · simp at hm
    · exact not_mem_goEscape_path_63 path hm
  · exact not_mem_goEscape_path_63 path

lemma pathPart_empty_or_slash (path hostRaw : List Nat) (hh : hostRaw ≠ []) :
    pathPart path hostRaw = [] ∨ 47 ∈ pathPart path hostRaw := by
  unfold pathPart
  rcases eq_or_ne (goEscape .path path) [] with he | he
  · rw [if_neg (by simp [he])]
    exact Or.inl he
  · rcases eq_or_ne (goEscape .path path).head? (some 47) with h47 | h47
    · rw [if_neg (by simp [h47])]
      refine Or.inr ?_
      cases hep : goEscape .path path with
      | nil => exact absurd hep he
      | cons c rest =>
        rw [hep] at h47
        simp only [List.head?_cons, Option.some.injEq] at h47
        rw [h47]
        exact List.mem_cons_self 47 rest
    · rw [if_pos ⟨he, h47, hh⟩]
      exact Or.inr (List.mem_cons_self 47 _)

lemma urlString_query (scheme userinfo hostRaw path rawQuery : List Nat)
    (hq : rawQuery ≠ []) :
    urlString scheme userinfo hostRaw path rawQuery =
      scheme ++ goStr "://" ++ userinfo ++ goStr "@" ++ goEscape .host hostRaw
        ++ pathPart path hostRaw ++ ([63] ++ rawQuery) := by
  unfold urlString
  rw [if_pos hq]

/-- Decomposition of the string built from empty server, user and
password and no DSN: the fixed user-info/host-colon prefix, then the
escaped port, then the path part, then the query. -/
lemma build_noDSN_decomp (portStr instanceName database : List Nat) :
    buildConnectionString [] portStr instanceName database [] [] []
      = goStr "sqlserver://:@:"
          ++ (goEscape .host portStr
            ++ (pathPart instanceName ([] ++ [58] ++ portStr)
              ++ (63 :: valuesEncode (buildQuery database)))) := by
  have hq : valuesEncode (buildQuery database) ≠ [] :=
    valuesEncode_ne_nil _ (by simp [buildQuery])
  have hlen : (buildQuery database).length > 0 := by simp [buildQuery]
  unfold buildConnectionString
  rw [if_neg (by simp), if_pos hlen, urlString_query _ _ _ _ _ hq,
    goEscape_append .host ([] ++ [58]) portStr]
  simp only [List.append_assoc]
  rfl

/-- The branch main takes when no DSN is supplied. -/
lemma mainDecision_noDSN (server portStr instanceName database user password : List Nat) :
    mainDecision server portStr instanceName database user password [] =
      (if (buildConnectionString server portStr instanceName database user password [] == []
            || goStartsWith
              (buildConnectionString server portStr instanceName database user password [])
              emptyDSNMarker)
        then MainAction.configError
        else .connect
          (buildConnectionString server portStr instanceName database user password [])) :=
  rfl

/-- Counterexample to C5 as stated: with server, user and password all
empty and no DSN, but a non-empty instance name, the built string does
not carry the guard's marker shape, so main does not fail fast. -/
theorem mainDecision_empty_fields_cex :
    mainDecision [] (goStr "1433") (goStr "x") [] [] [] [] ≠ MainAction.configError := by
  decide

/-- C5 (amended: with the port at its default 1433 and no instance
name). For empty server, user and password, no DSN, the default port
and no instance, the built string starts with the empty-configuration
marker sqlserver://:@:1433? whatever the database field holds, and main
exits with the configuration error before any connection attempt — the
retry scheduler is never invoked on this path. -/
theorem mainDecision_emptyParams (database : List Nat) :
    mainDecision [] (goStr "1433") [] database [] [] [] = MainAction.configError := by
  have hcs : buildConnectionString [] (goStr "1433") [] database [] [] []
      = emptyDSNMarker ++ valuesEncode (buildQuery database) := by
    rw [build_noDSN_decomp]
    rfl
  rw [mainDecision_noDSN, hcs]
  simp [goStartsWith_append]

/-- If the built string (empty server, user, password, no DSN) starts
with the guard marker, the port must be the literal 1433. -/
lemma built_marker_forces_port (portStr instanceName database : List Nat)
    (hsw : goStartsWith (buildConnectionString [] portStr instanceName database [] [] [])
        emptyDSNMarker = true) :
    portStr = goStr "1433" := by
  rcases (goStartsWith_iff _ _).mp hsw with ⟨rest, hrest⟩
  rw [build_noDSN_decomp] at hrest
  rw [show emptyDSNMarker = goStr "sqlserver://:@:" ++ (goStr "1433" ++ [63]) from rfl]
    at hrest
  simp only [List.append_assoc] at hrest
  have h2 := List.append_cancel_left hrest
  rw [show goStr "1433" ++ ([63] ++ rest) = goStr "1433" ++ 63 :: rest from rfl,
    ← List.append_assoc] at h2
  have hA : (63 : Nat) ∉ goEscape .host portStr ++ pathPart instanceName ([] ++ [58] ++ portStr) := by
    intro hm
    rcases List.mem_append.mp hm with hm | hm
    · exact not_mem_goEscape_host_63 portStr hm
    · exact pathPart_no_63 instanceName _ hm
  have hsplit := sep_split 63 (goStr "1433")
    (goEscape .host portStr ++ pathPart instanceName ([] ++ [58] ++ portStr))
    (valuesEncode (buildQuery database)) rest hA (by decide) h2
  rcases pathPart_empty_or_slash instanceName ([] ++ [58] ++ portStr) (by simp) with hP | hP
  · rw [hP, List.append_nil] at hsplit
    exact goEscape_host_eq_self portStr (goStr "1433") (by decide) hsplit
  · have h47 : (47 : Nat) ∈ goStr "1433" := by
      rw [← hsplit]
      exact List.mem_append_right _ hP
    exact absurd h47 (by decide)

/-- C10. With server, user and password empty and no DSN, any port
other than the literal 1433 escapes the fail-fast guard: the built
string does not start with sqlserver://:@:1433?, and main proceeds to
attempt a real connection with the semantically empty string. -/
theorem mainDecision_nondefault_port (portStr instanceName database : List Nat)
    (hp : portStr ≠ goStr "1433") :
    goStartsWith (buildConnectionString [] portStr instanceName database [] [] [])
        emptyDSNMarker = false ∧
      mainDecision [] portStr instanceName database [] [] []
        = MainAction.connect
            (buildConnectionString [] portStr instanceName database [] [] []) := by
  have hsw : goStartsWith (buildConnectionString [] portStr instanceName database [] [] [])
      emptyDSNMarker = false := by
    by_contra h
    rw [Bool.not_eq_false] at h
    exact hp (built_marker_forces_port portStr instanceName database h)
  refine ⟨hsw, ?_⟩
  rw [mainDecision_noDSN, hsw]
  have hne : (buildConnectionString [] portStr instanceName database [] [] [] == []) = false := by
    rw [build_noDSN_decomp]
    rfl
  rw [hne]
  rfl

/-- Witness for C10 at port 80. -/
theorem mainDecision_nondefault_port_witness :
    goStr "80" ≠ goStr "1433" ∧
      (goStartsWith (buildConnectionString [] (goStr "80") [] [] [] [] [])
          emptyDSNMarker = false ∧
        mainDecision [] (goStr "80") [] [] [] [] []
          = MainAction.connect (buildConnectionString [] (goStr "80") [] [] [] [] [])) :=
  ⟨by decide, mainDecision_nondefault_port (goStr "80") [] [] (by decide)⟩

end AzureWakeupDb
